import Mathlib

/-!
Verification development for the nw-utils request-authentication library.

The JWT verification pipeline (`newAuthCloudflare` and its helpers) and the
token-extraction utilities (`getTokenFromHeader`, `getTokenFromCookie`,
`parseCookie`) are embedded as executable Lean definitions.  Host primitives
that the source delegates to the JavaScript runtime — `atob`, `JSON.parse`,
`fetch`, `crypto.subtle.importKey`, `crypto.subtle.verify`,
`decodeURIComponent` — are modelled as oracle parameters collected in the
`Host` structure (or passed explicitly), so every theorem quantifies over
their behaviour.  String primitives used by the source (`split` on a
one-character separator, `trim`, `replace`, `startsWith`, `indexOf`-based
slicing) are re-implemented structurally over `List Char` so that all
definitions evaluate by kernel reduction.
-/

namespace NwUtils

/-- JavaScript-style whitespace predicate used by `String.prototype.trim`
(restricted to the ASCII whitespace characters, which are the only ones the
development evaluates on). -/
def jsWhitespace (c : Char) : Bool :=
  c == ' ' || c == '\t' || c == '\n' || c == '\r' || c == '\x0b' || c == '\x0c'

/-- `String.prototype.trim`: drop leading and trailing whitespace. -/
def jsTrim (s : String) : String :=
  String.mk (((s.toList.dropWhile jsWhitespace).reverse.dropWhile jsWhitespace).reverse)

/-- Auxiliary splitter: JavaScript `String.prototype.split` with a
one-character separator, keeping empty segments. -/
def jsSplitAux (c : Char) : List Char → List Char → List String
  | [], acc => [String.mk acc.reverse]
  | x :: xs, acc =>
    if x == c then String.mk acc.reverse :: jsSplitAux c xs []
    else jsSplitAux c xs (x :: acc)

/-- JavaScript `s.split(c)` for a one-character separator `c` (the source only
splits on `"."`, `";"` and `"="`). -/
def jsSplit (c : Char) (s : String) : List String :=
  jsSplitAux c s.toList []

/-- Join a list of strings with a one-character separator (inverse of
`jsSplit` on the tail of a split; used to model `slice(indexOf + 1)`). -/
def joinSep (c : Char) : List String → String
  | [] => ""
  | [s] => s
  | s :: rest => s ++ String.mk [c] ++ joinSep c rest

/-- Bool test that `pre` is a prefix of `s` (JavaScript `s.startsWith(pre)`). -/
def strStartsWith (pre s : String) : Bool :=
  pre.toList.isPrefixOf s.toList

/-- `Uint8Array.from(str, c => c.charCodeAt(0))`: the code units of a binary
string, truncated to bytes. -/
def strToBytes (s : String) : List Nat :=
  s.toList.map (fun c => c.toNat % 256)

/-- The single flat error type of the source (`AuthError`): a human-readable
message; causes are distinguished only by message text. -/
structure AuthError where
  message : String
deriving Repr, DecidableEq

/-- A JWK entry of the fetched key set (interface `JWK` in the source). -/
structure JWK where
  kty : String
  kid : String
  use : Option String := none
  alg : Option String := none
  n : Option String := none
  e : Option String := none
  x : Option String := none
  y : Option String := none
  crv : Option String := none
deriving Repr, DecidableEq

/-- The fetched key set (interface `JWKS`). -/
structure JWKS where
  keys : List JWK
deriving Repr, DecidableEq

/-- Decoded JWT header (interface `JWTHeader`). -/
structure JWTHeader where
  alg : String
  kid : Option String := none
  typ : Option String := none
deriving Repr, DecidableEq

/-- A JSON value, used for claims whose runtime type the source inspects
(the `email` claim is checked with `typeof === "string"`). -/
inductive JsonValue where
  | jnull
  | jbool (b : Bool)
  | jnum (n : Int)
  | jstr (s : String)
  | jarr (elems : List JsonValue)
  | jobj (fields : List (String × JsonValue))

/-- The `aud` claim as typed in the source: absent, a string, or an array of
strings (`aud?: string | string[]`). -/
inductive AudClaim where
  | absent
  | scalar (s : String)
  | values (l : List String)
deriving Repr, DecidableEq

/-- Decoded JWT payload (interface `JWTPayload`), with the claims the source
reads.  Numeric claims are `Int` (JavaScript numbers at seconds resolution). -/
structure JWTPayload where
  iss : Option String := none
  aud : AudClaim := .absent
  exp : Option Int := none
  nbf : Option Int := none
  iat : Option Int := none
  email : Option JsonValue := none

/-- JavaScript truthiness of an optional number: present and nonzero.
Models guards such as `payload.exp && ...`. -/
def numTruthy : Option Int → Bool
  | none => false
  | some n => n != 0

/-- JavaScript truthiness of an optional string: present and non-empty.
Models guards such as `if (audience)`. -/
def strTruthy : Option String → Bool
  | none => false
  | some s => s != ""

/-- Template-string rendering of an optional string (`undefined` prints as
`"undefined"`). -/
def showJsOpt : Option String → String
  | none => "undefined"
  | some s => s

/-- Template-string rendering of the `aud` claim (arrays join with `","`). -/
def showAud : AudClaim → String
  | .absent => "undefined"
  | .scalar s => s
  | .values l => joinSep ',' l

/-- Import-time algorithm parameters handed to `crypto.subtle.importKey`. -/
inductive ImportParams where
  | rsassaPkcs1v15 (hash : String)
  | ecdsa (namedCurve : String)
deriving Repr, DecidableEq

/-- An imported verification key: WebCrypto keys carry the algorithm
parameters they were imported with, plus the key material. -/
structure CryptoKey where
  algorithm : ImportParams
  jwk : JWK
deriving Repr, DecidableEq

/-- Verify-time algorithm parameters handed to `crypto.subtle.verify`:
the RSA branch passes `{ name: "RSASSA-PKCS1-v1_5" }` with no hash, the
ECDSA branch passes a hash name. -/
inductive VerifyParams where
  | rsassaPkcs1v15
  | ecdsa (hash : String)
deriving Repr, DecidableEq

/-- One call to `crypto.subtle.importKey` (format `"jwk"`). -/
structure ImportCall where
  jwk : JWK
  params : ImportParams
deriving Repr, DecidableEq

/-- One call to `crypto.subtle.verify`. -/
structure VerifyCall where
  params : VerifyParams
  key : CryptoKey
  signature : List Nat
  data : String

/-- Host primitives the source delegates to the JavaScript runtime.  Each
fallible primitive returns `Except String` (`error` models a thrown
exception's message); `fetchResult` is the outcome of fetching the fixed
JWKS URL; `subtleImportErr` returns `some message` when import throws. -/
structure Host where
  atob : String → Except String String
  parseHeaderJson : String → Except String JWTHeader
  parsePayloadJson : String → Except String JWTPayload
  fetchResult : Except String JWKS
  subtleImportErr : ImportCall → Option String
  subtleVerify : VerifyCall → Bool

/-- `base64UrlDecode`: translate `-`/`_` to `+`/`/`, restore `=` padding to a
multiple-of-4 length, and hand the result to the host's `atob`. -/
def b64urlToB64Char (ch : Char) : Char :=
  if ch == '-' then '+' else if ch == '_' then '/' else ch

/-- The character translation step of `base64UrlDecode`: every dash becomes
a plus and every underscore a forward slash (two global replaces). -/
def b64Translate (s : String) : String :=
  String.mk (s.toList.map b64urlToB64Char)

/-- The padding step of `base64UrlDecode` (`while (base64.length % 4) += "="`). -/
def padB64 (s : String) : String :=
  s ++ String.mk (List.replicate ((4 - s.length % 4) % 4) '=')

/-- `base64UrlDecode` from the source: translation, padding, then `atob`. -/
def base64UrlDecode (atobFn : String → Except String String) (s : String) :
    Except String String :=
  atobFn (padB64 (b64Translate s))

/-- The result of `decodeJWT`: header, payload, and the third segment kept
as the raw (still base64url-encoded) signature string. -/
structure DecodedJWT where
  header : JWTHeader
  payload : JWTPayload
  signature : String

/-- The body of `decodeJWT` after the three segments are in hand: base64url
decode and JSON-parse the first two segments; any thrown failure is caught
and reported as `Failed to decode JWT: ...`. -/
def decodeSegments (host : Host) (headerB64 payloadB64 signatureB64 : String) :
    Except AuthError DecodedJWT :=
  match base64UrlDecode host.atob headerB64 with
  | .error m => .error ⟨"Failed to decode JWT: " ++ m⟩
  | .ok headerJson =>
    match host.parseHeaderJson headerJson with
    | .error m => .error ⟨"Failed to decode JWT: " ++ m⟩
    | .ok header =>
      match base64UrlDecode host.atob payloadB64 with
      | .error m => .error ⟨"Failed to decode JWT: " ++ m⟩
      | .ok payloadJson =>
        match host.parsePayloadJson payloadJson with
        | .error m => .error ⟨"Failed to decode JWT: " ++ m⟩
        | .ok payload => .ok ⟨header, payload, signatureB64⟩

/-- `decodeJWT`: split the token on `"."`; unless exactly three segments
result, fail with `Invalid JWT format`; otherwise decode the segments. -/
def decodeJWT (host : Host) (token : String) : Except AuthError DecodedJWT :=
  match jsSplit '.' token with
  | [headerB64, payloadB64, signatureB64] =>
    decodeSegments host headerB64 payloadB64 signatureB64
  | _ => .error ⟨"Invalid JWT format"⟩

/-- The code's audience normalization
(`Array.isArray(aud) ? aud : aud ? [aud] : []`): note a scalar empty string
is falsy and normalizes to the empty list. -/
def audiencesOf : AudClaim → List String
  | .values l => l
  | .scalar s => if s != "" then [s] else []
  | .absent => []

/-- `validatePayload`: exp, nbf, iss, then aud checks, failing fast, exactly
as the source's guard chain (including the JavaScript truthiness guards). -/
def validatePayload (now : Int) (p : JWTPayload) (issuer : String)
    (audience : Option String) : Except AuthError Unit :=
  if numTruthy p.exp && decide (p.exp.getD 0 < now) then
    .error ⟨"Token has expired"⟩
  else if numTruthy p.nbf && decide (p.nbf.getD 0 > now) then
    .error ⟨"Token is not yet valid"⟩
  else if p.iss != some issuer then
    .error ⟨"Invalid issuer: expected " ++ issuer ++ ", got " ++ showJsOpt p.iss⟩
  else if strTruthy audience then
    if (audiencesOf p.aud).contains (audience.getD "") then .ok ()
    else
      .error ⟨"Invalid audience: expected " ++ audience.getD "" ++ ", got "
        ++ showAud p.aud⟩
  else .ok ()

/-- `importPublicKey`: dispatch on `kty`; RSA keys import as
RSASSA-PKCS1-v1_5/SHA-256, EC keys as ECDSA with curve P-256 only when
`crv === "P-256"` and P-384 otherwise; other key types throw. -/
def importPublicKey (host : Host) (jwk : JWK) : Except String CryptoKey :=
  if jwk.kty == "RSA" then
    let params := ImportParams.rsassaPkcs1v15 "SHA-256"
    match host.subtleImportErr ⟨jwk, params⟩ with
    | some m => .error m
    | none => .ok ⟨params, jwk⟩
  else if jwk.kty == "EC" then
    let params := ImportParams.ecdsa (if jwk.crv == some "P-256" then "P-256" else "P-384")
    match host.subtleImportErr ⟨jwk, params⟩ with
    | some m => .error m
    | none => .ok ⟨params, jwk⟩
  else
    .error ("Unsupported key type: " ++ jwk.kty)

/-- `verifySignature`: re-split the token (returning `false` unless three
segments), base64url-decode the signature segment (a thrown decode failure
propagates), then dispatch on the declared algorithm's prefix: `RS*` calls
`crypto.subtle.verify` with RSASSA-PKCS1-v1_5, `ES*` with ECDSA and SHA-256
for exactly `ES256` else SHA-384; any other prefix throws. -/
def verifySignature (host : Host) (token : String) (publicKey : CryptoKey)
    (algorithm : String) : Except String Bool :=
  match jsSplit '.' token with
  | [headerB64, payloadB64, signatureB64] =>
    match base64UrlDecode host.atob signatureB64 with
    | .error m => .error m
    | .ok sigStr =>
      let signature := strToBytes sigStr
      let data := headerB64 ++ "." ++ payloadB64
      if strStartsWith "RS" algorithm then
        .ok (host.subtleVerify ⟨VerifyParams.rsassaPkcs1v15, publicKey, signature, data⟩)
      else if strStartsWith "ES" algorithm then
        let hashAlgorithm := if algorithm == "ES256" then "SHA-256" else "SHA-384"
        .ok (host.subtleVerify ⟨VerifyParams.ecdsa hashAlgorithm, publicKey, signature, data⟩)
      else
        .error ("Unsupported algorithm: " ++ algorithm)
  | _ => .ok false

/-- Key resolution inside `tokenVerify`:
`jwks.keys.find((key) => key.kid === header.kid)`. -/
def findKey (keys : List JWK) (kid : Option String) : Option JWK :=
  keys.find? (fun k => some k.kid == kid)

/-- The async body of `tokenVerify`: decode, validate claims, take the
fetched key set, resolve the key by `kid`, import it, verify the signature,
then extract the `email` claim (string-typed and non-empty).  Thrown errors
are carried as messages. -/
def tokenVerifyRun (host : Host) (now : Int) (issuer : String)
    (audience : Option String) (token : String) : Except String String :=
  match decodeJWT host token with
  | .error e => .error e.message
  | .ok decoded =>
    match validatePayload now decoded.payload issuer audience with
    | .error e => .error e.message
    | .ok _ =>
      match host.fetchResult with
      | .error m => .error m
      | .ok jwks =>
        match findKey jwks.keys decoded.header.kid with
        | none => .error ("No matching key found for kid: " ++ showJsOpt decoded.header.kid)
        | some jwk =>
          match importPublicKey host jwk with
          | .error m => .error m
          | .ok publicKey =>
            match verifySignature host token publicKey decoded.header.alg with
            | .error m => .error m
            | .ok isValid =>
              if isValid then
                match decoded.payload.email with
                | some (JsonValue.jstr s) =>
                  if s != "" then .ok s else .error "No email found in JWT payload"
                | _ => .error "No email found in JWT payload"
              else .error "Invalid signature"

/-- `tokenVerify`: the `fromPromise` wrapper maps any rejection to
`AuthError` with message `Invalid JWT token: <thrown message>`. -/
def tokenVerify (host : Host) (now : Int) (issuer : String)
    (audience : Option String) (token : String) : Except AuthError String :=
  match tokenVerifyRun host now issuer audience token with
  | .ok v => .ok v
  | .error m => .error ⟨"Invalid JWT token: " ++ m⟩

/-! ### Adapter utilities (`src/adapter/util.ts`) -/

/-- Request metadata: the header list of an incoming `Request`. -/
structure HttpRequest where
  headers : List (String × String)

/-- ASCII lowercasing of one character (header names are ASCII). -/
def lowerChar (c : Char) : Char :=
  if 'A' ≤ c ∧ c ≤ 'Z' then Char.ofNat (c.toNat + 32) else c

/-- ASCII lowercasing of a string, for case-insensitive header names. -/
def lowerStr (s : String) : String :=
  String.mk (s.toList.map lowerChar)

/-- `req.headers.get(name)`: case-insensitive lookup returning the first
matching header's value (duplicate headers, which the claims do not
exercise, are not joined). -/
def headersGet (req : HttpRequest) (name : String) : Option String :=
  (req.headers.find? (fun h => lowerStr h.1 == lowerStr name)).map (fun h => h.2)

/-- `getTokenFromHeader`: a present header value (any string, including the
empty string) is returned as the token; an absent header is an error. -/
def getTokenFromHeader (req : HttpRequest) (headerKey : String) :
    Except AuthError String :=
  match headersGet req headerKey with
  | some token => .ok token
  | none => .error ⟨"No token found in headers"⟩

/-- One entry of `parseCookie`'s `map` step: trim the pair, split at the
first `=` (no `=` yields the discarded `("", "")`), trim both sides, then
percent-decode both sides with fallback to the raw values when the host
`decodeURIComponent` (the `dec` oracle, `none` = throw) rejects either. -/
def parseCookieEntry (dec : String → Option String) (cookie : String) :
    String × String :=
  let trimmedCookie := jsTrim cookie
  match jsSplit '=' trimmedCookie with
  | [_] => ("", "")
  | k :: rest =>
    let key := jsTrim k
    let value := jsTrim (joinSep '=' rest)
    match dec key, dec value with
    | some dk, some dv => (dk, dv)
    | _, _ => (key, value)
  | [] => ("", "")

/-- `parseCookie`: split the Cookie header on `;`, map each piece through
`parseCookieEntry`, and discard entries whose (decoded) name is empty. -/
def parseCookie (dec : String → Option String) (cookieHeader : String) :
    List (String × String) :=
  ((jsSplit ';' cookieHeader).map (parseCookieEntry dec)).filter
    (fun e₀ => e₀.1.length > 0)

/-- `new Map(entries).get(k)`: entries are inserted in order and a later
entry with the same key overwrites the earlier value, so lookup returns the
last matching entry's value. -/
def mapGet (entries : List (String × String)) (k : String) : Option String :=
  entries.foldl (fun acc e₀ => if e₀.1 == k then some e₀.2 else acc) none

/-- `getTokenFromCookie`: parse the `Cookie` header (absent header is an
error), look the cookie key up in the parsed map, and return the trimmed
value when it is truthy (present and non-empty). -/
def getTokenFromCookie (dec : String → Option String) (req : HttpRequest)
    (cookieKey : String) : Except AuthError String :=
  match headersGet req "Cookie" with
  | some cookieHeader =>
    match mapGet (parseCookie dec cookieHeader) cookieKey with
    | some token =>
      if token != "" then .ok (jsTrim token)
      else .error ⟨"No token found in cookies"⟩
    | none => .error ⟨"No token found in cookies"⟩
  | none => .error ⟨"No Cookie header found"⟩

/-- The fixed header name of the Cloudflare adapter. -/
def AUTH_HEADER_KEY : String := "Cf-Access-Jwt-Assertion"

/-- The fixed cookie name of the Cloudflare adapter. -/
def AUTH_COOKIE_KEY : String := "CF_Authorization"

/-- `getToken` of the Cloudflare adapter: header first, cookie only on
header failure (`orElse`). -/
def getToken (dec : String → Option String) (req : HttpRequest) :
    Except AuthError String :=
  match getTokenFromHeader req AUTH_HEADER_KEY with
  | .ok t => .ok t
  | .error _ => getTokenFromCookie dec req AUTH_COOKIE_KEY

/-! ### A concrete model of the host `decodeURIComponent`

Used to instantiate the `dec` oracle on concrete inputs.  It agrees with the
JavaScript built-in on strings whose percent escapes denote ASCII bytes;
escapes of non-ASCII bytes (which would start UTF-8 sequences) are mapped to
failure and never evaluated by this development. -/

/-- Value of one hexadecimal digit, case-insensitive. -/
def hexVal (c : Char) : Option Nat :=
  if '0' ≤ c ∧ c ≤ '9' then some (c.toNat - '0'.toNat)
  else if 'a' ≤ c ∧ c ≤ 'f' then some (c.toNat - 'a'.toNat + 10)
  else if 'A' ≤ c ∧ c ≤ 'F' then some (c.toNat - 'A'.toNat + 10)
  else none

/-- Percent-decode a character list; a `%` must be followed by two hex
digits denoting an ASCII byte. -/
def percentDecodeList : List Char → Option (List Char)
  | [] => some []
  | '%' :: h₁ :: h₂ :: rest =>
    match hexVal h₁, hexVal h₂ with
    | some a, some b =>
      let n := a * 16 + b
      if n < 128 then (percentDecodeList rest).map (fun l => Char.ofNat n :: l)
      else none
    | _, _ => none
  | '%' :: _ => none
  | c :: rest => (percentDecodeList rest).map (fun l => c :: l)

/-- The host `decodeURIComponent` restricted to ASCII percent escapes. -/
def decodeURIComponentAscii (s : String) : Option String :=
  (percentDecodeList s.toList).map (fun l => String.mk l)

/-! ### Spec-side definitions used for refinement comparisons -/

/-- Modelled from the spec: the claim-validation audience normalization,
"normalize the payload's audience claim to a set (absent → empty set,
scalar → singleton, already a set → itself)", stated for comparison with
the code's `audiencesOf`. -/
def specAudienceSet : AudClaim → List String
  | .absent => []
  | .scalar s => [s]
  | .values l => l

/-! ### Helper lemmas -/

/-- A present, nonzero `exp` claim strictly in the past makes
`validatePayload` fail with the expired error. -/
theorem validatePayload_expired (now : Int) (p : JWTPayload) (issuer : String)
    (audience : Option String) (e₀ : Int) (he : p.exp = some e₀) (hne : e₀ ≠ 0)
    (hlt : e₀ < now) :
    validatePayload now p issuer audience = .error ⟨"Token has expired"⟩ := by
  have h₁ : (e₀ != 0) = true := by simpa using hne
  have h₂ : decide (e₀ < now) = true := decide_eq_true hlt
  simp [validatePayload, he, numTruthy, h₁, h₂]

/-- When the exp, nbf and iss guards pass, `validatePayload` reduces to the
audience check. -/
theorem validatePayload_aud_step (now : Int) (p : JWTPayload) (issuer : String)
    (audience : Option String)
    (hexp : (numTruthy p.exp && decide (p.exp.getD 0 < now)) = false)
    (hnbf : (numTruthy p.nbf && decide (p.nbf.getD 0 > now)) = false)
    (hiss : p.iss = some issuer) :
    validatePayload now p issuer audience =
      (if strTruthy audience then
        if (audiencesOf p.aud).contains (audience.getD "") then .ok ()
        else .error ⟨"Invalid audience: expected " ++ audience.getD "" ++ ", got "
          ++ showAud p.aud⟩
      else .ok ()) := by
  have hiss' : (p.iss != some issuer) = false := by simp [hiss]
  simp only [validatePayload, hexp, hnbf, hiss', Bool.false_eq_true, if_false]

/-- For a non-empty expected audience, membership in the code's normalized
audience list agrees with membership in the spec's normalized set (the two
differ only on a scalar empty-string claim, which can contain no non-empty
audience either way). -/
theorem contains_audiencesOf_eq_spec (aud : AudClaim) (a : String) (ha : a ≠ "") :
    (audiencesOf aud).contains a = (specAudienceSet aud).contains a := by
  cases aud with
  | absent => rfl
  | values l => rfl
  | scalar s =>
    by_cases hs : s = ""
    · subst hs
      simp [audiencesOf, specAudienceSet, List.contains, ha]
    · have : (s != "") = true := by simpa using hs
      simp [audiencesOf, specAudienceSet, this]

/-! ### C1 -/

/-- C1 counterexample: a payload carrying `exp = 0`, strictly less than the
current time `1`; the claim predicts `validatePayload` fails with the
expired error, but the JavaScript truthiness guard `payload.exp && ...`
treats a zero `exp` as absent and validation succeeds. -/
theorem expiredZeroCounterexample :
    (({ iss := some "https://example.cloudflareaccess.com", exp := some 0 } :
        JWTPayload).exp = some 0) ∧
    ((0 : Int) < 1) ∧
    validatePayload 1
      { iss := some "https://example.cloudflareaccess.com", exp := some 0 }
      "https://example.cloudflareaccess.com" none = .ok () :=
  ⟨rfl, by decide, rfl⟩

/-- C1 (amended): for every decoded payload containing a *nonzero*
`expiresAt` claim strictly less than the current time, `validatePayload`
fails with the expired error, and the whole verification pipeline fails
with that error (wrapped by the pipeline's uniform prefix) for every host —
in particular regardless of signature validity. -/
theorem expiredRejected :
    (∀ (now : Int) (p : JWTPayload) (issuer : String) (audience : Option String)
      (e₀ : Int), p.exp = some e₀ → e₀ ≠ 0 → e₀ < now →
      validatePayload now p issuer audience = .error ⟨"Token has expired"⟩) ∧
    (∀ (host : Host) (now : Int) (issuer : String) (audience : Option String)
      (token : String) (d : DecodedJWT) (e₀ : Int),
      decodeJWT host token = .ok d → d.payload.exp = some e₀ → e₀ ≠ 0 → e₀ < now →
      tokenVerify host now issuer audience token =
        .error ⟨"Invalid JWT token: Token has expired"⟩) := by
  refine ⟨fun now p issuer audience e₀ he hne hlt =>
    validatePayload_expired now p issuer audience e₀ he hne hlt, ?_⟩
  intro host now issuer audience token d e₀ hd he hne hlt
  have hv := validatePayload_expired now d.payload issuer audience e₀ he hne hlt
  simp [tokenVerify, tokenVerifyRun, hd, hv]

/-- Witness for the amended C1 at a concrete expired payload. -/
theorem expiredRejectedWitness :
    validatePayload 10 { iss := some "i", exp := some 5 } "i" none
      = .error ⟨"Token has expired"⟩ :=
  expiredRejected.1 10 { iss := some "i", exp := some 5 } "i" none 5 rfl
    (by decide) (by decide)

/-! ### C4 -/

/-- C4 counterexample: with expected audience configured as the empty
string and an absent `aud` claim, the expected audience is not a member of
the normalized (empty) audience set, so the claim predicts the
audience-mismatch error; but the truthiness guard `if (audience)` skips the
whole audience check and validation succeeds. -/
theorem audienceEmptyCounterexample :
    validatePayload 0 ({ iss := some "iss" } : JWTPayload) "iss" (some "") = .ok () ∧
    (specAudienceSet ({ iss := some "iss" } : JWTPayload).aud).contains "" = false :=
  ⟨rfl, rfl⟩

/-- C4 (amended): for every configured *non-empty* expected audience and
every payload passing the exp, nbf and iss checks, `validatePayload`
normalizes the `aud` claim to a set (absent → empty, scalar → singleton,
array → itself) and fails with the audience-mismatch error exactly when the
expected audience is not a member; when the expected audience is absent or
the empty string, no audience check is performed. -/
theorem audienceCheckAmended :
    ∀ (now : Int) (p : JWTPayload) (issuer : String) (a : String),
      (numTruthy p.exp && decide (p.exp.getD 0 < now)) = false →
      (numTruthy p.nbf && decide (p.nbf.getD 0 > now)) = false →
      p.iss = some issuer →
      (a ≠ "" →
        (validatePayload now p issuer (some a) = .ok () ↔
          (specAudienceSet p.aud).contains a = true) ∧
        ((specAudienceSet p.aud).contains a = false →
          validatePayload now p issuer (some a) =
            .error ⟨"Invalid audience: expected " ++ a ++ ", got " ++ showAud p.aud⟩)) ∧
      validatePayload now p issuer none = .ok () ∧
      validatePayload now p issuer (some "") = .ok () := by
  intro now p issuer a hexp hnbf hiss
  refine ⟨?_, ?_, ?_⟩
  · intro ha
    have hstep := validatePayload_aud_step now p issuer (some a) hexp hnbf hiss
    have hc := contains_audiencesOf_eq_spec p.aud a ha
    have hta : strTruthy (some a) = true := by simpa [strTruthy] using ha
    rw [hstep]
    simp only [hta, if_true, Option.getD_some, hc]
    cases hspec : (specAudienceSet p.aud).contains a <;> simp [hspec]
  · rw [validatePayload_aud_step now p issuer none hexp hnbf hiss]
    rfl
  · rw [validatePayload_aud_step now p issuer (some "") hexp hnbf hiss]
    rfl

/-- Witness for the amended C4: a matching scalar audience passes. -/
theorem audienceCheckAmendedWitness :
    validatePayload 0 { iss := some "i", aud := .scalar "my-aud" } "i"
      (some "my-aud") = .ok () :=
  (((audienceCheckAmended 0 { iss := some "i", aud := .scalar "my-aud" } "i"
      "my-aud" rfl rfl rfl).1 (by decide)).1).mpr rfl

/-! ### C10 -/

/-- Request carrying a percent-encoded whitespace cookie value. -/
def reqPctCookie : HttpRequest := ⟨[("Cookie", "CF_Authorization=%20")]⟩

/-- C10 counterexample: the cookie value `%20` decodes to a space, which
trims to the empty string — the claim predicts `getTokenFromCookie` fails —
yet the stored (pre-decode-trimmed) value `" "` is truthy, so extraction
succeeds with the empty token. -/
theorem cookieWhitespaceCounterexample :
    decodeURIComponentAscii "%20" = some " " ∧
    jsTrim " " = "" ∧
    getTokenFromCookie decodeURIComponentAscii reqPctCookie "CF_Authorization"
      = .ok "" :=
  ⟨rfl, rfl, rfl⟩

/-- C10 (amended): a cookie whose stored value (trimmed before decoding) is
the empty string is treated as no token, while a non-empty stored value is
returned trimmed; the configured token header present with an empty-string
value is returned as the (empty) token — header extraction is decided by
presence, cookie extraction by non-emptiness of the stored value. -/
theorem cookieEmptinessAmended :
    (∀ (dec : String → Option String) (req : HttpRequest) (ck ch : String),
      headersGet req "Cookie" = some ch →
      mapGet (parseCookie dec ch) ck = some "" →
      getTokenFromCookie dec req ck = .error ⟨"No token found in cookies"⟩) ∧
    (∀ (dec : String → Option String) (req : HttpRequest) (ck ch v : String),
      headersGet req "Cookie" = some ch →
      mapGet (parseCookie dec ch) ck = some v → v ≠ "" →
      getTokenFromCookie dec req ck = .ok (jsTrim v)) ∧
    (∀ (req : HttpRequest) (hk : String),
      headersGet req hk = some "" → getTokenFromHeader req hk = .ok "") := by
  refine ⟨?_, ?_, ?_⟩
  · intro dec req ck ch hch hv
    simp [getTokenFromCookie, hch, hv]
  · intro dec req ck ch v hch hv hne
    have hbv : (v != "") = true := by simpa using hne
    simp [getTokenFromCookie, hch, hv, hbv]
  · intro req hk hh
    simp [getTokenFromHeader, hh]

/-- Witness for the amended C10: an explicitly empty cookie value errs. -/
theorem cookieEmptinessAmendedWitness :
    getTokenFromCookie decodeURIComponentAscii ⟨[("Cookie", "CF_Authorization=")]⟩
      "CF_Authorization" = .error ⟨"No token found in cookies"⟩ :=
  cookieEmptinessAmended.1 decodeURIComponentAscii
    ⟨[("Cookie", "CF_Authorization=")]⟩ "CF_Authorization" "CF_Authorization="
    rfl rfl

/-! ### Concrete instances used by witnesses -/

/-- A concrete RSA key-set entry. -/
def jwkW : JWK := { kty := "RSA", kid := "key1" }

/-- A concrete EC entry sharing the identifier of `jwkW`. -/
def jwkW2 : JWK := { kty := "EC", kid := "key1" }

/-- A concrete payload carrying a non-empty email claim. -/
def payloadW : JWTPayload :=
  { iss := some "iss", email := some (JsonValue.jstr "user@example.com") }

/-- A concrete host whose oracles all succeed: `atob` returns its input,
parsing returns fixed header/payload, the key set holds `jwkW`, import
succeeds and every signature verifies. -/
def hostW : Host :=
  { atob := fun s => .ok s
    parseHeaderJson := fun _ => .ok { alg := "RS256", kid := some "key1" }
    parsePayloadJson := fun _ => .ok payloadW
    fetchResult := .ok ⟨[jwkW]⟩
    subtleImportErr := fun _ => none
    subtleVerify := fun _ => true }

/-! ### C2 -/

/-- C2: when extraction is given and decoding, claim validation, key fetch,
key resolution, key import and signature verification all succeed, the
pipeline succeeds exactly when the payload's `email` claim is a non-empty
string, returns it unchanged, and otherwise fails with the
missing-identity-claim error. -/
theorem emailExtraction :
    ∀ (host : Host) (now : Int) (issuer : String) (audience : Option String)
      (token : String) (d : DecodedJWT) (jwks : JWKS) (jwk : JWK)
      (key : CryptoKey),
      decodeJWT host token = .ok d →
      validatePayload now d.payload issuer audience = .ok () →
      host.fetchResult = .ok jwks →
      findKey jwks.keys d.header.kid = some jwk →
      importPublicKey host jwk = .ok key →
      verifySignature host token key d.header.alg = .ok true →
      (∀ s, tokenVerify host now issuer audience token = .ok s ↔
        d.payload.email = some (JsonValue.jstr s) ∧ s ≠ "") ∧
      ((∀ s : String, d.payload.email = some (JsonValue.jstr s) → s = "") →
        tokenVerify host now issuer audience token =
          .error ⟨"Invalid JWT token: No email found in JWT payload"⟩) := by
  intro host now issuer audience token d jwks jwk key hdec hval hf hk hi hsig
  have hrun : tokenVerifyRun host now issuer audience token =
      (match d.payload.email with
       | some (JsonValue.jstr s) =>
         if s != "" then .ok s else .error "No email found in JWT payload"
       | _ => .error "No email found in JWT payload") := by
    simp [tokenVerifyRun, hdec, hval, hf, hk, hi, hsig]
  constructor
  · intro s
    cases hm : d.payload.email with
    | none => simp [tokenVerify, hrun, hm]
    | some jv =>
      cases jv with
      | jstr s₀ =>
        by_cases hs₀ : s₀ = ""
        · subst hs₀
          simp [tokenVerify, hrun, hm]
          exact fun h => h.symm
        · have hbs : (s₀ != "") = true := by simpa using hs₀
          have htv : tokenVerify host now issuer audience token = .ok s₀ := by
            simp [tokenVerify, hrun, hm, hbs]
          rw [htv]
          constructor
          · intro h
            injection h with h'
            subst h'
            exact ⟨rfl, hs₀⟩
          · rintro ⟨h₁, _⟩
            injection h₁ with h₂
            injection h₂ with h₃
            rw [h₃]
      | jnull => simp [tokenVerify, hrun, hm]
      | jbool b => simp [tokenVerify, hrun, hm]
      | jnum n => simp [tokenVerify, hrun, hm]
      | jarr l => simp [tokenVerify, hrun, hm]
      | jobj l => simp [tokenVerify, hrun, hm]
  · intro hempty
    cases hm : d.payload.email with
    | none => simp [tokenVerify, hrun, hm]
    | some jv =>
      cases jv with
      | jstr s₀ =>
        have : s₀ = "" := hempty s₀ hm
        subst this
        simp [tokenVerify, hrun, hm]
      | jnull => simp [tokenVerify, hrun, hm]
      | jbool b => simp [tokenVerify, hrun, hm]
      | jnum n => simp [tokenVerify, hrun, hm]
      | jarr l => simp [tokenVerify, hrun, hm]
      | jobj l => simp [tokenVerify, hrun, hm]

/-- Witness for C2: a full successful pipeline run returning the email. -/
theorem emailExtractionWitness :
    tokenVerify hostW 0 "iss" none "h.p.s" = .ok "user@example.com" :=
  ((emailExtraction hostW 0 "iss" none "h.p.s"
      ⟨{ alg := "RS256", kid := some "key1" }, payloadW, "s"⟩ ⟨[jwkW]⟩ jwkW
      ⟨ImportParams.rsassaPkcs1v15 "SHA-256", jwkW⟩
      rfl rfl rfl rfl rfl rfl).1 "user@example.com").mpr ⟨rfl, by decide⟩

/-! ### C3 -/

/-- A string beginning with `"ES"` does not begin with `"RS"`. -/
theorem es_not_rs (alg : String) (hes : strStartsWith "ES" alg = true) :
    strStartsWith "RS" alg = false := by
  unfold strStartsWith at *
  have h₁ : "ES".toList = ['E', 'S'] := rfl
  have h₂ : "RS".toList = ['R', 'S'] := rfl
  rw [h₁] at hes
  rw [h₂]
  cases hl : alg.toList with
  | nil => rw [hl] at hes; simp [List.isPrefixOf] at hes
  | cons c rest =>
    rw [hl] at hes
    simp [List.isPrefixOf] at hes ⊢
    intro hc
    rw [← hc] at hes
    simp at hes

/-- C3: with the token in three segments and a decodable signature segment,
`verifySignature` dispatches on the declared algorithm's prefix — `RS*`
calls the host verifier with RSASSA-PKCS1-v1_5 parameters (the hash being
fixed to SHA-256 at import time for RSA keys), `ES256` with ECDSA/SHA-256,
any other `ES*` with ECDSA/SHA-384, and any other prefix throws the
unsupported-algorithm error without consulting the verifier. -/
theorem signatureAlgDispatch :
    (∀ (host : Host) (token : String) (key : CryptoKey)
      (algorithm hB pB sB sigStr : String),
      jsSplit '.' token = [hB, pB, sB] →
      base64UrlDecode host.atob sB = .ok sigStr →
      ((strStartsWith "RS" algorithm = true →
        verifySignature host token key algorithm =
          .ok (host.subtleVerify
            ⟨VerifyParams.rsassaPkcs1v15, key, strToBytes sigStr, hB ++ "." ++ pB⟩)) ∧
       (algorithm = "ES256" →
        verifySignature host token key algorithm =
          .ok (host.subtleVerify
            ⟨VerifyParams.ecdsa "SHA-256", key, strToBytes sigStr, hB ++ "." ++ pB⟩)) ∧
       (strStartsWith "ES" algorithm = true → algorithm ≠ "ES256" →
        verifySignature host token key algorithm =
          .ok (host.subtleVerify
            ⟨VerifyParams.ecdsa "SHA-384", key, strToBytes sigStr, hB ++ "." ++ pB⟩)) ∧
       (strStartsWith "RS" algorithm = false → strStartsWith "ES" algorithm = false →
        verifySignature host token key algorithm =
          .error ("Unsupported algorithm: " ++ algorithm)))) ∧
    (∀ (host : Host) (jwk : JWK) (key : CryptoKey), jwk.kty = "RSA" →
      importPublicKey host jwk = .ok key →
      key.algorithm = ImportParams.rsassaPkcs1v15 "SHA-256") := by
  constructor
  · intro host token key algorithm hB pB sB sigStr hsp hsig
    refine ⟨?_, ?_, ?_, ?_⟩
    · intro hrs
      simp [verifySignature, hsp, hsig, hrs]
    · intro halg
      subst halg
      have h₁ : strStartsWith "RS" "ES256" = false := rfl
      have h₂ : strStartsWith "ES" "ES256" = true := rfl
      simp [verifySignature, hsp, hsig, h₁, h₂]
    · intro hes hne
      have h₁ : strStartsWith "RS" algorithm = false := es_not_rs algorithm hes
      have h₂ : (algorithm == "ES256") = false := by simpa using hne
      simp [verifySignature, hsp, hsig, h₁, hes, h₂]
    · intro h₁ h₂
      simp [verifySignature, hsp, hsig, h₁, h₂]
  · intro host jwk key hkty himp
    have hb : (jwk.kty == "RSA") = true := by simp [hkty]
    simp only [importPublicKey, hb, if_true] at himp
    cases h : host.subtleImportErr ⟨jwk, ImportParams.rsassaPkcs1v15 "SHA-256"⟩ with
    | some m => rw [h] at himp; exact absurd himp (by simp)
    | none =>
      rw [h] at himp
      injection himp with h'
      rw [← h']

/-- Witness for C3: a concrete `RS256` dispatch through `hostW`. -/
theorem signatureAlgDispatchWitness :
    verifySignature hostW "a.b.c" ⟨ImportParams.rsassaPkcs1v15 "SHA-256", jwkW⟩
      "RS256" = .ok true :=
  (((signatureAlgDispatch.1 hostW "a.b.c"
      ⟨ImportParams.rsassaPkcs1v15 "SHA-256", jwkW⟩ "RS256" "a" "b" "c" "c==="
      rfl rfl).1) rfl).trans rfl

/-! ### C5 -/

/-- `List.find?` returns the first entry satisfying the predicate when the
earlier entries all fail it. -/
theorem find?_append_first {α : Type} (p : α → Bool) (l₁ l₂ : List α) (j : α)
    (hj : p j = true) (hl : ∀ k ∈ l₁, p k = false) :
    List.find? p (l₁ ++ j :: l₂) = some j := by
  induction l₁ with
  | nil => simp [List.find?_cons, hj]
  | cons a t ih =>
    have ha : p a = false := hl a (by simp)
    simp only [List.cons_append, List.find?_cons, ha]
    exact ih (fun k hk => hl k (by simp [hk]))

/-- C5: key resolution picks the first key-set entry whose `kid` equals the
header's `kid` (so the earliest entry wins on duplicate identifiers), fails
exactly when no entry matches, and a failed resolution makes the pipeline
fail with the key-not-found error. -/
theorem keyResolutionFirstMatch :
    (∀ (keys₁ keys₂ : List JWK) (jwk : JWK) (kid : Option String),
      some jwk.kid = kid → (∀ k ∈ keys₁, some k.kid ≠ kid) →
      findKey (keys₁ ++ jwk :: keys₂) kid = some jwk) ∧
    (∀ (keys : List JWK) (kid : Option String),
      findKey keys kid = none ↔ ∀ k ∈ keys, some k.kid ≠ kid) ∧
    (∀ (host : Host) (now : Int) (issuer : String) (audience : Option String)
      (token : String) (d : DecodedJWT) (jwks : JWKS),
      decodeJWT host token = .ok d →
      validatePayload now d.payload issuer audience = .ok () →
      host.fetchResult = .ok jwks →
      findKey jwks.keys d.header.kid = none →
      tokenVerify host now issuer audience token =
        .error ⟨"Invalid JWT token: No matching key found for kid: "
          ++ showJsOpt d.header.kid⟩) := by
  refine ⟨?_, ?_, ?_⟩
  · intro keys₁ keys₂ jwk kid hmatch hnone
    have hj : (some jwk.kid == kid) = true := by simp [hmatch]
    have hl : ∀ k ∈ keys₁, (some k.kid == kid) = false := by
      intro k hk
      simpa using hnone k hk
    exact find?_append_first _ keys₁ keys₂ jwk hj hl
  · intro keys kid
    simp [findKey, List.find?_eq_none]
  · intro host now issuer audience token d jwks hdec hval hf hk
    simp only [tokenVerify, tokenVerifyRun, hdec, hval, hf, hk]
    exact rfl

/-- Witness for C5: with duplicate identifiers the earliest entry wins. -/
theorem keyResolutionFirstMatchWitness :
    findKey [jwkW, jwkW2] (some "key1") = some jwkW :=
  keyResolutionFirstMatch.1 [] [jwkW2] jwkW (some "key1") rfl (by simp)

/-! ### C6 -/

/-- Every error produced by the segment-decoding phase is a decode-failure
message. -/
theorem decodeSegments_error (host : Host) (a b c : String) (e₀ : AuthError)
    (he : decodeSegments host a b c = .error e₀) :
    ∃ m, e₀.message = "Failed to decode JWT: " ++ m := by
  cases h₁ : base64UrlDecode host.atob a with
  | error m =>
    simp only [decodeSegments, h₁] at he
    injection he with h
    exact ⟨m, by rw [← h]⟩
  | ok hjson =>
    cases h₂ : host.parseHeaderJson hjson with
    | error m =>
      simp only [decodeSegments, h₁, h₂] at he
      injection he with h
      exact ⟨m, by rw [← h]⟩
    | ok hdr =>
      cases h₃ : base64UrlDecode host.atob b with
      | error m =>
        simp only [decodeSegments, h₁, h₂, h₃] at he
        injection he with h
        exact ⟨m, by rw [← h]⟩
      | ok pjson =>
        cases h₄ : host.parsePayloadJson pjson with
        | error m =>
          simp only [decodeSegments, h₁, h₂, h₃, h₄] at he
          injection he with h
          exact ⟨m, by rw [← h]⟩
        | ok payload =>
          simp only [decodeSegments, h₁, h₂, h₃, h₄] at he
          exact absurd he (by simp)

/-- C6: `decodeJWT` fails with the malformed-token error whenever the token
does not split into exactly three segments, and whenever base64url-decoding
or JSON-parsing of the first two segments fails; every outcome is an
explicit `Result` whose error is one of the two malformed-token messages. -/
theorem decodeFailuresMalformed :
    ∀ (host : Host) (token : String),
      ((jsSplit '.' token).length ≠ 3 →
        decodeJWT host token = .error ⟨"Invalid JWT format"⟩) ∧
      (∀ hB pB sB, jsSplit '.' token = [hB, pB, sB] →
        (∀ m, base64UrlDecode host.atob hB = .error m →
          decodeJWT host token = .error ⟨"Failed to decode JWT: " ++ m⟩) ∧
        (∀ hjson m, base64UrlDecode host.atob hB = .ok hjson →
          host.parseHeaderJson hjson = .error m →
          decodeJWT host token = .error ⟨"Failed to decode JWT: " ++ m⟩) ∧
        (∀ hjson hdr m, base64UrlDecode host.atob hB = .ok hjson →
          host.parseHeaderJson hjson = .ok hdr →
          base64UrlDecode host.atob pB = .error m →
          decodeJWT host token = .error ⟨"Failed to decode JWT: " ++ m⟩) ∧
        (∀ hjson hdr pjson m, base64UrlDecode host.atob hB = .ok hjson →
          host.parseHeaderJson hjson = .ok hdr →
          base64UrlDecode host.atob pB = .ok pjson →
          host.parsePayloadJson pjson = .error m →
          decodeJWT host token = .error ⟨"Failed to decode JWT: " ++ m⟩)) ∧
      (∀ e₀, decodeJWT host token = .error e₀ →
        e₀.message = "Invalid JWT format" ∨
        ∃ m, e₀.message = "Failed to decode JWT: " ++ m) := by
  intro host token
  refine ⟨?_, ?_, ?_⟩
  · intro hlen
    rcases hsp : jsSplit '.' token with _ | ⟨a, _ | ⟨b, _ | ⟨c, _ | ⟨d₀, t⟩⟩⟩⟩
    · simp [decodeJWT, hsp]
    · simp [decodeJWT, hsp]
    · simp [decodeJWT, hsp]
    · exact absurd (by simp [hsp]) hlen
    · simp [decodeJWT, hsp]
  · intro hB pB sB hsp
    refine ⟨?_, ?_, ?_, ?_⟩
    · intro m h₁
      simp [decodeJWT, hsp, decodeSegments, h₁]
    · intro hjson m h₁ h₂
      simp [decodeJWT, hsp, decodeSegments, h₁, h₂]
    · intro hjson hdr m h₁ h₂ h₃
      simp [decodeJWT, hsp, decodeSegments, h₁, h₂, h₃]
    · intro hjson hdr pjson m h₁ h₂ h₃ h₄
      simp [decodeJWT, hsp, decodeSegments, h₁, h₂, h₃, h₄]
  · intro e₀ he
    rcases hsp : jsSplit '.' token with _ | ⟨a, _ | ⟨b, _ | ⟨c, _ | ⟨d₀, t⟩⟩⟩⟩
    · simp [decodeJWT, hsp] at he
      exact Or.inl (by rw [← he])
    · simp [decodeJWT, hsp] at he
      exact Or.inl (by rw [← he])
    · simp [decodeJWT, hsp] at he
      exact Or.inl (by rw [← he])
    · rw [decodeJWT, hsp] at he
      exact Or.inr (decodeSegments_error host a b c e₀ he)
    · simp [decodeJWT, hsp] at he
      exact Or.inl (by rw [← he])

/-- Witness for C6: a two-segment token is malformed. -/
theorem decodeFailuresMalformedWitness :
    decodeJWT hostW "a.b" = .error ⟨"Invalid JWT format"⟩ :=
  (decodeFailuresMalformed hostW "a.b").1 (by decide)

/-! ### C7 -/

/-- `decodeJWT` depends only on the host's decode and parse primitives. -/
theorem decodeJWT_host_fields (h₁ h₂ : Host) (token : String)
    (ha : h₁.atob = h₂.atob) (hh : h₁.parseHeaderJson = h₂.parseHeaderJson)
    (hp : h₁.parsePayloadJson = h₂.parsePayloadJson) :
    decodeJWT h₁ token = decodeJWT h₂ token := by
  unfold decodeJWT decodeSegments
  rw [ha, hh, hp]

/-- C7: a failing stage determines the pipeline's outcome — its error is
returned (under the pipeline's uniform wrapper) and no later stage runs; in
particular a decode or claim-validation failure fixes the outcome for every
key-set fetch result, import oracle and signature oracle. -/
theorem stageShortCircuit :
    ∀ (host : Host) (now : Int) (issuer : String) (audience : Option String)
      (token : String),
      (∀ (f : Except String JWKS) (i : ImportCall → Option String)
        (v : VerifyCall → Bool) (e₀ : AuthError),
        decodeJWT host token = .error e₀ →
        tokenVerify
          { host with fetchResult := f, subtleImportErr := i, subtleVerify := v }
          now issuer audience token =
          .error ⟨"Invalid JWT token: " ++ e₀.message⟩) ∧
      (∀ (f : Except String JWKS) (i : ImportCall → Option String)
        (v : VerifyCall → Bool) (d : DecodedJWT) (e₀ : AuthError),
        decodeJWT host token = .ok d →
        validatePayload now d.payload issuer audience = .error e₀ →
        tokenVerify
          { host with fetchResult := f, subtleImportErr := i, subtleVerify := v }
          now issuer audience token =
          .error ⟨"Invalid JWT token: " ++ e₀.message⟩) ∧
      (∀ (d : DecodedJWT) (m : String),
        decodeJWT host token = .ok d →
        validatePayload now d.payload issuer audience = .ok () →
        host.fetchResult = .error m →
        tokenVerify host now issuer audience token =
          .error ⟨"Invalid JWT token: " ++ m⟩) ∧
      (∀ (d : DecodedJWT) (jwks : JWKS) (jwk : JWK) (m : String),
        decodeJWT host token = .ok d →
        validatePayload now d.payload issuer audience = .ok () →
        host.fetchResult = .ok jwks →
        findKey jwks.keys d.header.kid = some jwk →
        importPublicKey host jwk = .error m →
        tokenVerify host now issuer audience token =
          .error ⟨"Invalid JWT token: " ++ m⟩) ∧
      (∀ (d : DecodedJWT) (jwks : JWKS) (jwk : JWK) (key : CryptoKey) (m : String),
        decodeJWT host token = .ok d →
        validatePayload now d.payload issuer audience = .ok () →
        host.fetchResult = .ok jwks →
        findKey jwks.keys d.header.kid = some jwk →
        importPublicKey host jwk = .ok key →
        verifySignature host token key d.header.alg = .error m →
        tokenVerify host now issuer audience token =
          .error ⟨"Invalid JWT token: " ++ m⟩) ∧
      (∀ (d : DecodedJWT) (jwks : JWKS) (jwk : JWK) (key : CryptoKey),
        decodeJWT host token = .ok d →
        validatePayload now d.payload issuer audience = .ok () →
        host.fetchResult = .ok jwks →
        findKey jwks.keys d.header.kid = some jwk →
        importPublicKey host jwk = .ok key →
        verifySignature host token key d.header.alg = .ok false →
        tokenVerify host now issuer audience token =
          .error ⟨"Invalid JWT token: Invalid signature"⟩) := by
  intro host now issuer audience token
  refine ⟨?_, ?_, ?_, ?_, ?_, ?_⟩
  · intro f i v e₀ he
    have he' : decodeJWT
        { host with fetchResult := f, subtleImportErr := i, subtleVerify := v }
        token = .error e₀ :=
      (decodeJWT_host_fields
        { host with fetchResult := f, subtleImportErr := i, subtleVerify := v }
        host token rfl rfl rfl).trans he
    simp [tokenVerify, tokenVerifyRun, he']
  · intro f i v d e₀ hdec hval
    have hdec' : decodeJWT
        { host with fetchResult := f, subtleImportErr := i, subtleVerify := v }
        token = .ok d :=
      (decodeJWT_host_fields
        { host with fetchResult := f, subtleImportErr := i, subtleVerify := v }
        host token rfl rfl rfl).trans hdec
    simp [tokenVerify, tokenVerifyRun, hdec', hval]
  · intro d m hdec hval hf
    simp [tokenVerify, tokenVerifyRun, hdec, hval, hf]
  · intro d jwks jwk m hdec hval hf hk hi
    simp [tokenVerify, tokenVerifyRun, hdec, hval, hf, hk, hi]
  · intro d jwks jwk key m hdec hval hf hk hi hsig
    simp [tokenVerify, tokenVerifyRun, hdec, hval, hf, hk, hi, hsig]
  · intro d jwks jwk key hdec hval hf hk hi hsig
    simp [tokenVerify, tokenVerifyRun, hdec, hval, hf, hk, hi, hsig]

/-- Witness for C7: a malformed token fixes the pipeline outcome for an
arbitrary replacement of the later-stage oracles. -/
theorem stageShortCircuitWitness :
    tokenVerify
      { hostW with
          fetchResult := .error "down"
          subtleImportErr := fun _ => some "bad"
          subtleVerify := fun _ => false }
      0 "iss" none "a.b" = .error ⟨"Invalid JWT token: Invalid JWT format"⟩ :=
  (stageShortCircuit hostW 0 "iss" none "a.b").1 (.error "down")
    (fun _ => some "bad") (fun _ => false) ⟨"Invalid JWT format"⟩ rfl

/-! ### C8 -/

/-- C8: when the configured token header is present its value is returned;
the cookie path runs only when the header is absent; and when the cookie
path also yields no token, extraction fails with a no-token error. -/
theorem headerPriorityExtraction :
    ∀ (dec : String → Option String) (req : HttpRequest),
      (∀ v, headersGet req AUTH_HEADER_KEY = some v → getToken dec req = .ok v) ∧
      (headersGet req AUTH_HEADER_KEY = none →
        getToken dec req = getTokenFromCookie dec req AUTH_COOKIE_KEY) ∧
      (headersGet req AUTH_HEADER_KEY = none →
        ∀ e₀, getTokenFromCookie dec req AUTH_COOKIE_KEY = .error e₀ →
          getToken dec req = .error e₀ ∧
          (e₀.message = "No token found in cookies" ∨
           e₀.message = "No Cookie header found")) := by
  intro dec req
  refine ⟨?_, ?_, ?_⟩
  · intro v hv
    simp [getToken, getTokenFromHeader, hv]
  · intro hn
    simp [getToken, getTokenFromHeader, hn]
  · intro hn e₀ he
    refine ⟨by simp [getToken, getTokenFromHeader, hn, he], ?_⟩
    cases hch : headersGet req "Cookie" with
    | none =>
      simp only [getTokenFromCookie, hch] at he
      injection he with h
      exact Or.inr (by rw [← h])
    | some ch =>
      cases hm : mapGet (parseCookie dec ch) AUTH_COOKIE_KEY with
      | none =>
        simp only [getTokenFromCookie, hch, hm] at he
        injection he with h
        exact Or.inl (by rw [← h])
      | some t =>
        by_cases ht : t = ""
        · subst ht
          simp only [getTokenFromCookie, hch, hm, bne_self_eq_false,
            Bool.false_eq_true, if_false] at he
          injection he with h
          exact Or.inl (by rw [← h])
        · have hbt : (t != "") = true := by simpa using ht
          simp only [getTokenFromCookie, hch, hm, hbt, if_true] at he
          exact absurd he (by simp)

/-- Witness for C8: a request with both sources resolves to the header. -/
theorem headerPriorityExtractionWitness :
    getToken decodeURIComponentAscii
      ⟨[("Cf-Access-Jwt-Assertion", "headertok"), ("Cookie", "CF_Authorization=cookietok")]⟩
      = .ok "headertok" :=
  (headerPriorityExtraction decodeURIComponentAscii
    ⟨[("Cf-Access-Jwt-Assertion", "headertok"), ("Cookie", "CF_Authorization=cookietok")]⟩).1
    "headertok" rfl

/-! ### C9 -/

/-- Folding map-insertions over entries none of which carry the key leaves
the accumulator unchanged. -/
theorem foldl_no_match (k : String) (l : List (String × String))
    (hl : ∀ e' ∈ l, e'.1 ≠ k) (acc : Option String) :
    l.foldl (fun acc e₀ => if e₀.1 == k then some e₀.2 else acc) acc = acc := by
  induction l generalizing acc with
  | nil => rfl
  | cons a t ih =>
    have ha : (a.1 == k) = false := by simpa using hl a (by simp)
    simp only [List.foldl_cons, ha, Bool.false_eq_true, if_false]
    exact ih (fun e' he' => hl e' (by simp [he'])) acc

/-- JavaScript `Map` lookup returns the value of the last entry carrying the
key. -/
theorem mapGet_append_last (l₁ l₂ : List (String × String))
    (e₀ : String × String) (k : String) (hk : e₀.1 = k)
    (hl : ∀ e' ∈ l₂, e'.1 ≠ k) :
    mapGet (l₁ ++ e₀ :: l₂) k = some e₀.2 := by
  unfold mapGet
  rw [List.foldl_append]
  have hke : (e₀.1 == k) = true := by simp [hk]
  simp only [List.foldl_cons, hke, if_true]
  exact foldl_no_match k l₂ hl (some e₀.2)

/-- C9: when the parsed Cookie header holds several pairs with the same
decoded name, the *last* pair's value is the one `getTokenFromCookie`
returns (the `Map` constructor overwrites earlier insertions), in contrast
to the first-match rule of key-set lookup. -/
theorem cookieLastPairWins :
    (∀ (dec : String → Option String) (req : HttpRequest) (ck ch : String)
      (l₁ l₂ : List (String × String)) (e₀ : String × String),
      headersGet req "Cookie" = some ch →
      parseCookie dec ch = l₁ ++ e₀ :: l₂ →
      e₀.1 = ck → (∀ e' ∈ l₂, e'.1 ≠ ck) → e₀.2 ≠ "" →
      getTokenFromCookie dec req ck = .ok (jsTrim e₀.2)) ∧
    (getTokenFromCookie decodeURIComponentAscii
        ⟨[("Cookie", "CF_Authorization=first; CF_Authorization=second")]⟩
        "CF_Authorization" = .ok "second" ∧ ("second" : String) ≠ "first") := by
  constructor
  · intro dec req ck ch l₁ l₂ e₀ hch hparse hk hl hne
    have hm : mapGet (parseCookie dec ch) ck = some e₀.2 := by
      rw [hparse]
      exact mapGet_append_last l₁ l₂ e₀ ck hk hl
    have hbv : (e₀.2 != "") = true := by simpa using hne
    simp [getTokenFromCookie, hch, hm, hbv]
  · exact ⟨rfl, by decide⟩

/-- Witness for C9: with a duplicated cookie name the second value wins. -/
theorem cookieLastPairWinsWitness :
    getTokenFromCookie decodeURIComponentAscii ⟨[("Cookie", "a=1; a=2")]⟩ "a"
      = .ok "2" :=
  cookieLastPairWins.1 decodeURIComponentAscii ⟨[("Cookie", "a=1; a=2")]⟩ "a"
    "a=1; a=2" [("a", "1")] [] ("a", "2") rfl rfl rfl (by simp) (by decide)

end NwUtils
